import Mathlib

/-!
Verification of the VCSL anchoring service (`services/serv_bsv.py`,
`routers/rout_vcsl.py`) against its natural-language specification.

The Python code is shallowly embedded below.  External collaborators
(the `hmac`/`hashlib` primitives, the `bsvlib` size estimator and address
derivation, the WhatsOnChain HTTP responses, and the Postgres store) are
modelled as explicit parameters: the embedding captures exactly how
`serv_bsv.py` composes them.  Machine integers are modelled as `ℤ`/`ℕ`
(Python integers are unbounded), and the float fee rate `0.5` as the
rational `1/2` (exact in binary floating point, so `int(size * 0.5)`
agrees with `⌊size * (1/2)⌋` for every realistic size).
-/

namespace VCSL

/-! ## Key derivation (`BsvService._derive_brc42_key`) -/

/-- The secp256k1 group order, imported in the source as `from bsvlib.curve import N`. -/
def N : ℕ := 115792089237316195423570985008687907852837564279074904382605163141518161494337

/-- Big-endian interpretation of a byte string as an unsigned integer,
modelling Python's `int.from_bytes(digest, 'big')`. -/
def fromBytesBE (bs : List ℕ) : ℕ :=
  bs.foldl (fun acc b => acc * 256 + b) 0

/-- Big-endian fixed-width byte representation of a scalar, modelling
`bsvlib`'s `Key.private_bytes()` (32-byte big-endian private scalar). -/
def toBytesBE : ℕ → ℕ → List ℕ
  | 0, _ => []
  | n + 1, v => toBytesBE n (v / 256) ++ [v % 256]

/-- UTF-8 bytes of a string, modelling `str.encode('utf-8')`. -/
def utf8Bytes (s : String) : List ℕ :=
  s.toUTF8.toList.map (fun b => b.toNat)

/-- The fixed protocol identifier `VCSL_PROTOCOL_ID = "quarkid-vcsl"`. -/
def VCSL_PROTOCOL_ID : String := "quarkid-vcsl"

/-- Embedding of `BsvService._derive_brc42_key`.  `hmacSHA256 key msg` is the
external `hmac.new(key, msg, hashlib.sha256).digest()` primitive, passed in as a
parameter; `masterScalar` is `self.wallet_key.private_int()`.  The source builds
the context string `f"{protocol}/{key_id}"`, HMACs its UTF-8 bytes under the
master key's 32 private-scalar bytes, reads the digest big-endian and adds it to
the master scalar modulo the curve order. -/
def deriveBrc42 (hmacSHA256 : List ℕ → List ℕ → List ℕ) (masterScalar : ℕ)
    (keyId : String) : ℕ :=
  let hmacKey := toBytesBE 32 masterScalar
  let contextString := VCSL_PROTOCOL_ID ++ "/" ++ keyId
  let message := utf8Bytes contextString
  let hmacDigest := hmacSHA256 hmacKey message
  let scalar := fromBytesBE hmacDigest
  (masterScalar + scalar) % N

/-- Address of the key derived for a context, modelling
`Key.from_int(child_scalar, network=...).address()`: `address` is the external
`bsvlib` scalar-to-address map for the service's fixed network. -/
def deriveBrc42Address (hmacSHA256 : List ℕ → List ℕ → List ℕ)
    (address : ℕ → String) (masterScalar : ℕ) (keyId : String) : String :=
  address (deriveBrc42 hmacSHA256 masterScalar keyId)

/-- Modelled from the spec (§4.1): `childScalar = (masterScalar + s) mod N` where
`s` is the big-endian integer reading of
`HMAC-SHA256(key = privateScalarBytes, message = UTF8(context))`; stated over the
full context string, for comparison with `deriveBrc42`. -/
def deriveSpecModel (hmacSHA256 : List ℕ → List ℕ → List ℕ) (masterScalar : ℕ)
    (context : String) : ℕ :=
  (masterScalar + fromBytesBE (hmacSHA256 (toBytesBE 32 masterScalar) (utf8Bytes context))) % N

/-! ## Transaction building (`BsvService._create_anchor_tx`) -/

/-- A locking script.  `bsvlib`'s `Script.p2pkh(address).hex()` is an injective
function of the address; it is modelled by the constructor `p2pkh`. -/
inductive Script where
  | p2pkh (addr : String)
deriving DecidableEq

/-- A spendable output as assembled by `_fetch_utxos` (the dict with keys
`txid`, `index`, `sats`, `script_pubkey`). -/
structure Utxo where
  txid : String
  index : ℤ
  sats : ℤ
  script_pubkey : Script
deriving DecidableEq

/-- A transaction input (`Tx.add_input` arguments). -/
structure TxInput where
  txid : String
  index : ℤ
  sats : ℤ
  script_pubkey : Script
deriving DecidableEq

/-- A transaction output (`bsvlib` `TxOutput(sats=..., script_pubkey=...)`). -/
structure TxOutput where
  sats : ℤ
  script_pubkey : Script
deriving DecidableEq

/-- A transaction: ordered inputs and outputs, as mutated by
`add_input`/`add_output` in `_create_anchor_tx`.  Signing does not change this
structure. -/
structure Tx where
  inputs : List TxInput
  outputs : List TxOutput
deriving DecidableEq

/-- The dust amount, `dust_amount = 546` in `_create_anchor_tx`. -/
def dust_amount : ℤ := 546

/-- The hard-coded fee rate, `fee_rate = 0.5` (sats/byte).  `0.5` is exactly
representable in binary floating point, so the rational `1/2` is an exact
model. -/
def fee_rate : ℚ := 1 / 2

/-- The fee computation of `_create_anchor_tx`:
`fee = max(1, int(estimated_size_bytes * fee_rate))`.  Python's `int()`
truncates toward zero, which on the non-negative product is the floor. -/
def anchorFee (estimated_size_bytes : ℕ) : ℤ :=
  max 1 (Int.floor ((estimated_size_bytes : ℚ) * fee_rate))

/-- Modelled from the spec (§4.3 step 3): `fee = max(1, ceil(estimatedSizeBytes
* feeRatePerByte))` — the ceiling variant the spec claims, for comparison with
`anchorFee`. -/
def specCeilFee (estimated_size_bytes : ℕ) : ℤ :=
  max 1 (Int.ceil ((estimated_size_bytes : ℚ) * fee_rate))

/-- The two failure modes of `_create_anchor_tx`: the `raise` on an empty UTXO
list ("No spendable UTXOs found ...") and the `raise` on `change_sats < 0`
("Insufficient funds in selected UTXO ... Needed: {dust+fee}, Available:
{sats}."). -/
inductive BuildError where
  | noUtxos
  | insufficientFunds (needed available : ℤ)
deriving DecidableEq

/-- Embedding of `BsvService._create_anchor_tx`.  `utxos` is the list returned
by `_fetch_utxos` for the wallet address; `estimated_size_bytes` is the value
of the external `t.estimated_size()` at the point it is called, i.e. with the
provisional placeholder change output still present (the placeholder is popped
immediately after, so its only effect is on this size); `derivedAddr` and
`walletAddr` are `derived_key.address()` and `self.wallet_key.address()`.  The
source takes the first UTXO, adds it as the only input, adds the dust output to
the derived address, computes the fee, raises if `change_sats < 0`, and adds a
change output back to the wallet exactly when `change_sats >= dust_amount`. -/
def createAnchorTx (utxos : List Utxo) (estimated_size_bytes : ℕ)
    (derivedAddr walletAddr : String) : Except BuildError Tx :=
  match utxos with
  | [] => .error .noUtxos
  | utxo_to_spend :: _ =>
    let t₀ : Tx := { inputs := [⟨utxo_to_spend.txid, utxo_to_spend.index,
                                utxo_to_spend.sats, utxo_to_spend.script_pubkey⟩],
                     outputs := [⟨dust_amount, Script.p2pkh derivedAddr⟩] }
    let fee := anchorFee estimated_size_bytes
    let change_sats := utxo_to_spend.sats - dust_amount - fee
    if change_sats < 0 then
      .error (.insufficientFunds (dust_amount + fee) utxo_to_spend.sats)
    else if dust_amount ≤ change_sats then
      .ok { t₀ with outputs := t₀.outputs ++ [⟨change_sats, Script.p2pkh walletAddr⟩] }
    else
      .ok t₀

/-- Total declared output value of a transaction. -/
def outputSats (t : Tx) : ℤ :=
  (t.outputs.map TxOutput.sats).sum

/-! ## UTXO source (`BsvService._fetch_utxos`) -/

/-- One entry of the indexer's JSON response, as read by `_fetch_utxos`:
`value` models `int(utxo_data.get('value', 0))` (missing field defaults to `0`,
which the positivity check then rejects); `tx_hash` is `some h` when the field
is present as a string (Python truthiness additionally rejects `some ""`);
`tx_pos` is `some i` exactly when the field is present and is an `int`
(`isinstance(index, int)` — an absent or non-integer field fails the check the
same way, so both are modelled by `none`). -/
structure WocEntry where
  value : ℤ
  tx_hash : Option String
  tx_pos : Option ℤ
deriving DecidableEq

/-- The per-entry conversion of the `_fetch_utxos` loop: an entry survives
exactly when `sats > 0 and txid and isinstance(index, int)`, and is then turned
into the UTXO dict with the reconstructed `Script.p2pkh(address)` locking
script. -/
def convUtxo (address : String) (e : WocEntry) : Option Utxo :=
  match e.tx_hash, e.tx_pos with
  | some txid, some index =>
    if 0 < e.value ∧ txid ≠ "" then
      some ⟨txid, index, e.value, Script.p2pkh address⟩
    else none
  | _, _ => none

/-- Embedding of `BsvService._fetch_utxos`.  `response` models the outcome of
the `requests.get` call plus JSON decoding: `.error` for any
`RequestException` or processing error (both `except` arms return `[]`),
`.ok data` for a decoded entry list, which is then filtered entry by
entry. -/
def fetchUtxos (address : String) (response : Except Unit (List WocEntry)) :
    List Utxo :=
  match response with
  | .error _ => []
  | .ok data => data.filterMap (convUtxo address)

/-! ## Broadcaster (`BsvService._broadcast_tx`) -/

/-- Python's default `str.strip()` whitespace set (ASCII part), used on the
WhatsOnChain response body. -/
def isPySpace (c : Char) : Bool :=
  c = ' ' || c = '\t' || c = '\n' || c = '\r' || c = '\x0b' || c = '\x0c'

/-- Model of Python's `str.strip`: drop characters satisfying `p` from both
ends. -/
def pyStrip (p : Char → Bool) (s : String) : String :=
  String.mk (((s.toList.dropWhile p).reverse.dropWhile p).reverse)

/-- Embedding of `BsvService._broadcast_tx`.  `localTxid` is `tx.txid()`
(computed locally from the signed bytes); `response` models the
`requests.post` submission: `.error` for a transport failure or a rejection
(`raise_for_status`), `.ok text` for an accepted submission with response body
`text`.  The source strips whitespace and quotes from the body, compares it to
the local id, and returns the local id either way — flagging a mismatch only
as a warning (the `Bool` component).  On failure it re-raises
`"Failed to broadcast transaction: ..."`. -/
def broadcastTx (localTxid : String) (response : Except String String) :
    Except String (String × Bool) :=
  match response with
  | .error e => .error ("Failed to broadcast transaction: " ++ e)
  | .ok text =>
    let txid_response := pyStrip (fun c => c = '"') (pyStrip isPySpace text)
    if txid_response = localTxid then
      .ok (txid_response, false)
    else
      .ok (localTxid, true)

/-! ## Orchestration (`BsvService.set_issuer_url`, `BsvService.add_vcsl`) -/

/-- Observable collaborator invocations of one orchestration call, recorded in
invocation order. -/
inductive Ev where
  | updateIssuerUrl (issuerId url : String)
  | deriveKeyEv
  | buildTxEv
  | broadcastEv
  | storeIssuerAnchor (issuerId txid : String)
  | storeVcsl (id ipns txid : String)
deriving DecidableEq

/-- Outcomes of the three anchoring steps of one call:
`_derive_brc42_key` (its result abstracted to the derived key's address),
`_create_anchor_tx`, and `_broadcast_tx` (its result being the txid). -/
structure AnchorSteps where
  deriveKey : Except String String
  buildTx : String → Except String Tx
  broadcast : Tx → Except String String

/-- The shared derive → build → broadcast sequence of both orchestration
methods, with its event trace; each step runs only if the previous one
succeeded (an exception aborts the `try` block). -/
def anchorChain (s : AnchorSteps) : Except String String × List Ev :=
  match s.deriveKey with
  | .error e => (.error e, [.deriveKeyEv])
  | .ok k =>
    match s.buildTx k with
    | .error e => (.error e, [.deriveKeyEv, .buildTxEv])
    | .ok t =>
      match s.broadcast t with
      | .error e => (.error e, [.deriveKeyEv, .buildTxEv, .broadcastEv])
      | .ok txid => (.ok txid, [.deriveKeyEv, .buildTxEv, .broadcastEv])

/-- The two failure modes of `add_vcsl`: the re-raise
`"Failed to create BSV anchor for VCSL {id}: ..."` when anchoring fails, and
the re-raise `"VCSL {id} anchored ({txid}), but failed to store in DB: ..."`
when the store write fails after a successful broadcast — the latter carries
the already-broadcast transaction id. -/
inductive AddVcslError where
  | anchorFailed (msg : String)
  | reconciliationRequired (txid msg : String)
deriving DecidableEq

/-- Embedding of `BsvService.add_vcsl`.  `store_vcsl id ipns txid` models
`self.db_service.store_vcsl(...)`.  The source anchors first (derive, build,
broadcast inside one `try`); on failure it re-raises and never touches the
store; only after a successful broadcast does it call `store_vcsl`, and a
failure there is re-raised carrying the txid. -/
def add_vcsl (s : AnchorSteps)
    (store_vcsl : String → String → String → Except String Unit)
    (id ipns : String) : Except AddVcslError String × List Ev :=
  match anchorChain s with
  | (.error e, evs) => (.error (.anchorFailed e), evs)
  | (.ok txid, evs) =>
    match store_vcsl id ipns txid with
    | .ok _ => (.ok txid, evs ++ [.storeVcsl id ipns txid])
    | .error db_err =>
      (.error (.reconciliationRequired txid db_err), evs ++ [.storeVcsl id ipns txid])

/-- Embedding of `BsvService.set_issuer_url`.  `update_issuer_url` models
`self.db_service.update_issuer_url(...)` and `store_issuer_anchor` models
`self.db_service.store_issuer_anchor(...)`.  The source writes the URL first
and re-raises on failure (before any anchoring); then it runs the anchoring
chain inside a `try` whose handler returns `None`; inside it, a failure of the
secondary anchor-txid write is caught and only logged, so both store branches
return the txid. -/
def set_issuer_url (s : AnchorSteps)
    (update_issuer_url : String → String → Except String Unit)
    (store_issuer_anchor : String → String → Except String Unit)
    (issuer_id new_issuer_url : String) :
    Except String (Option String) × List Ev :=
  match update_issuer_url issuer_id new_issuer_url with
  | .error db_err =>
    (.error ("Failed to update issuer URL in database: " ++ db_err),
     [.updateIssuerUrl issuer_id new_issuer_url])
  | .ok _ =>
    match anchorChain s with
    | (.error _, evs) =>
      (.ok none, .updateIssuerUrl issuer_id new_issuer_url :: evs)
    | (.ok txid, evs) =>
      match store_issuer_anchor issuer_id txid with
      | .ok _ =>
        (.ok (some txid),
         (.updateIssuerUrl issuer_id new_issuer_url :: evs)
           ++ [.storeIssuerAnchor issuer_id txid])
      | .error _ =>
        (.ok (some txid),
         (.updateIssuerUrl issuer_id new_issuer_url :: evs)
           ++ [.storeIssuerAnchor issuer_id txid])

/-! ## Getters and HTTP routing (`BsvService.get_issuer_url`,
`BsvService.get_vcsl`, `VcslRouter.get_issuer_url`) -/

/-- Embedding of `BsvService.get_issuer_url`: the store query either raises
(`.error`) — caught, returning `None` — or returns the row (`None` when the
issuer id is absent).  Note `PostgresDataStore.get_issuer_url` returns the
`(url, txid)` row, which the service passes through unchanged. -/
def serv_get_issuer_url
    (dbResp : Except String (Option (String × Option String))) :
    Option (String × Option String) :=
  match dbResp with
  | .ok url => url
  | .error _ => none

/-- Embedding of `BsvService.get_vcsl`: the tuple unpacking
`ipns, txid = db.get_vcsl(id)` raises on the `None` (absent) row, and that
`TypeError`, like a store failure, is caught by the same handler returning
`(None, None)`. -/
def serv_get_vcsl (dbResp : Except String (Option (String × String))) :
    Option String × Option String :=
  match dbResp with
  | .ok (some (ipns, txid)) => (some ipns, some txid)
  | .ok none => (none, none)
  | .error _ => (none, none)

/-- A FastAPI `HTTPException(status_code, detail)`. -/
structure HTTPError where
  status : ℕ
  detail : String
deriving DecidableEq

/-- Embedding of `VcslRouter.get_issuer_url`.  The source raises a 404 for a
missing record inside the same `try` whose `except Exception` re-raises
everything as a 500 whose detail interpolates `str(e)` (for an
`HTTPException`, `"{status_code}: {detail}"`), so the 404 itself is converted
to a 500. -/
def rout_get_issuer_url
    (dbResp : Except String (Option (String × Option String)))
    (issuer_id : String) :
    Except HTTPError (String × (String × Option String)) :=
  let tryBody : Except HTTPError (String × (String × Option String)) :=
    match serv_get_issuer_url dbResp with
    | none => .error ⟨404, "Issuer URL not found for " ++ issuer_id⟩
    | some url => .ok (issuer_id, url)
  match tryBody with
  | .ok resp => .ok resp
  | .error e =>
    .error ⟨500, "Error retrieving issuer URL: " ++ toString e.status ++ ": " ++ e.detail⟩

/-! ## Shared lemmas -/

/-- The fee formula at the hard-coded rate `1/2` is integer halving,
floored. -/
theorem anchorFee_eq_half (s : ℕ) : anchorFee s = max 1 ((s : ℤ) / 2) := by
  unfold anchorFee fee_rate
  have h1 : ((s : ℚ) * (1 / 2)) = ((s : ℤ) : ℚ) / ((2 : ℕ) : ℚ) := by
    push_cast; ring
  rw [h1, Rat.floor_intCast_div_natCast]
  norm_num

/-- The fee at the spec's example size. -/
theorem anchorFee_225 : anchorFee 225 = 112 := by
  rw [anchorFee_eq_half]; norm_num

/-- Unfolding of the builder on a non-empty UTXO list. -/
theorem createAnchorTx_cons (u : Utxo) (rest : List Utxo)
    (estimated_size_bytes : ℕ) (derivedAddr walletAddr : String) :
    createAnchorTx (u :: rest) estimated_size_bytes derivedAddr walletAddr =
      (if u.sats - dust_amount - anchorFee estimated_size_bytes < 0 then
        .error (.insufficientFunds (dust_amount + anchorFee estimated_size_bytes) u.sats)
      else if dust_amount ≤ u.sats - dust_amount - anchorFee estimated_size_bytes then
        .ok ⟨[⟨u.txid, u.index, u.sats, u.script_pubkey⟩],
             [⟨dust_amount, Script.p2pkh derivedAddr⟩,
              ⟨u.sats - dust_amount - anchorFee estimated_size_bytes,
               Script.p2pkh walletAddr⟩]⟩
      else
        .ok ⟨[⟨u.txid, u.index, u.sats, u.script_pubkey⟩],
             [⟨dust_amount, Script.p2pkh derivedAddr⟩]⟩) := rfl

/-- The anchoring chain never emits a store event. -/
theorem storeVcsl_not_mem_anchorChain (s : AnchorSteps) (i p t : String) :
    Ev.storeVcsl i p t ∉ (anchorChain s).2 := by
  unfold anchorChain
  rcases hd : s.deriveKey with e | k
  · simp
  · rcases hb : s.buildTx k with e | tx
    · simp [hb]
    · rcases hc : s.broadcast tx with e | txid
      · simp [hb, hc]
      · simp [hb, hc]

/-! ## Claims -/

/-- C1: `_derive_brc42_key` computes `HMAC-SHA256(masterKey.privateScalarBytes,
UTF8(context))`, reads the digest as a big-endian unsigned integer `s`, and
returns the key with private scalar `(masterScalar + s) mod N`, `N` the curve
group order (so the scalar is reduced below `N`); two calls with identical
`(masterKey, context)` yield identical scalars and addresses. -/
theorem c1_derive_brc42 (hmacSHA256 : List ℕ → List ℕ → List ℕ)
    (address : ℕ → String) (masterScalar : ℕ) (keyId : String) :
    deriveBrc42 hmacSHA256 masterScalar keyId
      = deriveSpecModel hmacSHA256 masterScalar (VCSL_PROTOCOL_ID ++ "/" ++ keyId)
    ∧ deriveBrc42 hmacSHA256 masterScalar keyId
      = (masterScalar + fromBytesBE (hmacSHA256 (toBytesBE 32 masterScalar)
          (utf8Bytes (VCSL_PROTOCOL_ID ++ "/" ++ keyId)))) % N
    ∧ deriveBrc42 hmacSHA256 masterScalar keyId < N
    ∧ (∀ masterScalar' keyId', masterScalar' = masterScalar → keyId' = keyId →
        deriveBrc42 hmacSHA256 masterScalar' keyId'
          = deriveBrc42 hmacSHA256 masterScalar keyId
        ∧ deriveBrc42Address hmacSHA256 address masterScalar' keyId'
          = deriveBrc42Address hmacSHA256 address masterScalar keyId) := by
  refine ⟨rfl, rfl, ?_, ?_⟩
  · exact Nat.mod_lt _ (by norm_num [N])
  · intro m' k' hm hk
    subst hm; subst hk
    exact ⟨rfl, rfl⟩

/-- Witness for C1: the determinism conjunct instantiated at a concrete
primitive, master scalar and context. -/
theorem c1_derive_brc42_witness :
    deriveBrc42 (fun _ _ => [7]) 5 "vcsl/x" = deriveBrc42 (fun _ _ => [7]) 5 "vcsl/x"
    ∧ deriveBrc42Address (fun _ _ => [7]) (fun _ => "addr") 5 "vcsl/x"
      = deriveBrc42Address (fun _ _ => [7]) (fun _ => "addr") 5 "vcsl/x" :=
  (c1_derive_brc42 (fun _ _ => [7]) (fun _ => "addr") 5 "vcsl/x").2.2.2 5 "vcsl/x" rfl rfl

/-- C2 counterexample: at estimated size 225 and the hard-coded rate 0.5 the
source's `int()`-truncated fee is 112, not the `max(1, ceil(size * rate))`
= 113 the claim states. -/
theorem c2_fee_counterexample :
    anchorFee 225 = 112 ∧ specCeilFee 225 = 113 ∧ anchorFee 225 ≠ specCeilFee 225 := by
  have hceil : specCeilFee 225 = 113 := by
    unfold specCeilFee fee_rate
    norm_num [Int.ceil_eq_iff]
  exact ⟨anchorFee_225, hceil, by rw [anchorFee_225, hceil]; norm_num⟩

/-- C2 amended: the fee is `max(1, trunc(estimatedSizeBytes * feeRatePerByte))`
(truncation, i.e. floor on the non-negative product, not ceiling); in
particular `fee >= 1` always holds, and at rate 0.5 with estimated size 225 the
fee equals 112; at the rate 0.5 this is `max(1, size div 2)`. -/
theorem c2_fee_floor (s : ℕ) :
    anchorFee s = max 1 (Int.floor ((s : ℚ) * fee_rate))
    ∧ anchorFee s = max 1 ((s : ℤ) / 2)
    ∧ 1 ≤ anchorFee s
    ∧ anchorFee 225 = 112 :=
  ⟨rfl, anchorFee_eq_half s, le_max_left 1 _, anchorFee_225⟩

/-- C3: the builder computes `change = selectedUtxoValue - dust - fee` and
fails with the insufficient-funds error exactly when `change < 0`; at the
boundary, `valueSats = dust + fee - 1` fails while `valueSats = dust + fee`
succeeds with no change output. -/
theorem c3_insufficient_funds (u : Utxo) (rest : List Utxo) (s : ℕ)
    (d w : String) :
    (createAnchorTx (u :: rest) s d w
        = .error (.insufficientFunds (dust_amount + anchorFee s) u.sats)
      ↔ u.sats - dust_amount - anchorFee s < 0)
    ∧ (u.sats = dust_amount + anchorFee s - 1 →
        createAnchorTx (u :: rest) s d w
          = .error (.insufficientFunds (dust_amount + anchorFee s) u.sats))
    ∧ (u.sats = dust_amount + anchorFee s →
        createAnchorTx (u :: rest) s d w
          = .ok ⟨[⟨u.txid, u.index, u.sats, u.script_pubkey⟩],
                 [⟨dust_amount, Script.p2pkh d⟩]⟩) := by
  rw [createAnchorTx_cons]
  have hdust : dust_amount = 546 := rfl
  refine ⟨⟨?_, ?_⟩, ?_, ?_⟩
  · intro h
    by_contra hneg
    push_neg at hneg
    rw [if_neg (not_lt.mpr hneg)] at h
    split_ifs at h
  · intro h
    rw [if_pos h]
  · intro h
    have hlt : u.sats - dust_amount - anchorFee s < 0 := by omega
    rw [if_pos hlt]
  · intro h
    have h0 : ¬ u.sats - dust_amount - anchorFee s < 0 := by omega
    have h1 : ¬ dust_amount ≤ u.sats - dust_amount - anchorFee s := by omega
    rw [if_neg h0, if_neg h1]

/-- Witness for C3: at estimated size 225 (fee 112, so dust + fee = 658), a
657-sat UTXO fails with insufficient funds and a 658-sat UTXO builds a
transaction with only the dust output. -/
theorem c3_insufficient_funds_witness :
    createAnchorTx [⟨"aa", 1, 657, Script.p2pkh "W"⟩] 225 "D" "W"
      = .error (.insufficientFunds (dust_amount + anchorFee 225) 657)
    ∧ createAnchorTx [⟨"aa", 1, 658, Script.p2pkh "W"⟩] 225 "D" "W"
      = .ok ⟨[⟨"aa", 1, 658, Script.p2pkh "W"⟩], [⟨dust_amount, Script.p2pkh "D"⟩]⟩ :=
  ⟨(c3_insufficient_funds ⟨"aa", 1, 657, Script.p2pkh "W"⟩ [] 225 "D" "W").2.1
      (by rw [anchorFee_225]; rfl),
   (c3_insufficient_funds ⟨"aa", 1, 658, Script.p2pkh "W"⟩ [] 225 "D" "W").2.2
      (by rw [anchorFee_225]; rfl)⟩

/-- C4: every successfully built anchor transaction spends exactly one input —
the first UTXO of the supplied list — its first output pays exactly the dust
threshold to the derived address, and it carries a change output (to the
funding address) of exactly `change` sats if and only if `change >= 546`. -/
theorem c4_tx_structure (u : Utxo) (rest : List Utxo) (s : ℕ) (d w : String)
    (t : Tx) (h : createAnchorTx (u :: rest) s d w = .ok t) :
    t.inputs = [⟨u.txid, u.index, u.sats, u.script_pubkey⟩]
    ∧ t.outputs.head? = some ⟨dust_amount, Script.p2pkh d⟩
    ∧ (dust_amount ≤ u.sats - dust_amount - anchorFee s →
        t.outputs = [⟨dust_amount, Script.p2pkh d⟩,
                     ⟨u.sats - dust_amount - anchorFee s, Script.p2pkh w⟩])
    ∧ (u.sats - dust_amount - anchorFee s < dust_amount →
        t.outputs = [⟨dust_amount, Script.p2pkh d⟩]) := by
  rw [createAnchorTx_cons] at h
  split_ifs at h with h1 h2
  · cases h
    exact ⟨rfl, rfl, fun _ => rfl, fun hc => absurd h2 (not_le.mpr hc)⟩
  · cases h
    exact ⟨rfl, rfl, fun hc => absurd hc h2, fun _ => rfl⟩

/-- Witness for C4: a 2000-sat UTXO at estimated size 225 (fee 112, change
1342 ≥ 546) builds the two-output transaction. -/
theorem c4_tx_structure_witness :
    (⟨[⟨"aa", 1, 2000, Script.p2pkh "W"⟩],
      [⟨dust_amount, Script.p2pkh "D"⟩, ⟨1342, Script.p2pkh "W"⟩]⟩ : Tx).inputs
      = [⟨"aa", 1, 2000, Script.p2pkh "W"⟩]
    ∧ (⟨[⟨"aa", 1, 2000, Script.p2pkh "W"⟩],
        [⟨dust_amount, Script.p2pkh "D"⟩, ⟨1342, Script.p2pkh "W"⟩]⟩ : Tx).outputs.head?
      = some ⟨dust_amount, Script.p2pkh "D"⟩
    ∧ (dust_amount ≤ (2000 : ℤ) - dust_amount - anchorFee 225 →
        (⟨[⟨"aa", 1, 2000, Script.p2pkh "W"⟩],
          [⟨dust_amount, Script.p2pkh "D"⟩, ⟨1342, Script.p2pkh "W"⟩]⟩ : Tx).outputs
          = [⟨dust_amount, Script.p2pkh "D"⟩,
             ⟨(2000 : ℤ) - dust_amount - anchorFee 225, Script.p2pkh "W"⟩])
    ∧ ((2000 : ℤ) - dust_amount - anchorFee 225 < dust_amount →
        (⟨[⟨"aa", 1, 2000, Script.p2pkh "W"⟩],
          [⟨dust_amount, Script.p2pkh "D"⟩, ⟨1342, Script.p2pkh "W"⟩]⟩ : Tx).outputs
          = [⟨dust_amount, Script.p2pkh "D"⟩]) :=
  c4_tx_structure ⟨"aa", 1, 2000, Script.p2pkh "W"⟩ [] 225 "D" "W"
    ⟨[⟨"aa", 1, 2000, Script.p2pkh "W"⟩],
     [⟨dust_amount, Script.p2pkh "D"⟩, ⟨1342, Script.p2pkh "W"⟩]⟩
    (by rw [createAnchorTx_cons, anchorFee_225]; rfl)

/-- C5 counterexample: for a 958-sat input at estimated size 225 (fee 112,
change 300 sub-dust and burned), the built transaction has only the dust
output, and the claimed conservation `inputValue = dustOutput + fee +
(changeOutput or 0)` fails: 958 ≠ 546 + 112 + 0. -/
theorem c5_conservation_counterexample :
    createAnchorTx [⟨"ff", 0, 958, Script.p2pkh "A"⟩] 225 "D" "A"
      = .ok ⟨[⟨"ff", 0, 958, Script.p2pkh "A"⟩], [⟨dust_amount, Script.p2pkh "D"⟩]⟩
    ∧ outputSats ⟨[⟨"ff", 0, 958, Script.p2pkh "A"⟩],
                  [⟨dust_amount, Script.p2pkh "D"⟩]⟩ = dust_amount
    ∧ (958 : ℤ) ≠ dust_amount + anchorFee 225 + 0 := by
  refine ⟨?_, ?_, ?_⟩
  · rw [createAnchorTx_cons, anchorFee_225]; rfl
  · simp [outputSats]
  · rw [anchorFee_225]; decide

/-- C5 amended: for every successfully built transaction, `inputValue =
dustOutput + fee + changeOutput` holds whenever a change output exists, and
also when the change is exactly zero; whenever `0 ≤ inputValue - dust - fee <
dustThreshold` the transaction has no change output and the shortfall absorbed
as extra fee (`inputValue - totalOutput - fee`) equals exactly that
difference (so the unconditional equation with the computed fee fails by that
shortfall when `0 < change < 546`). -/
theorem c5_conservation (u : Utxo) (rest : List Utxo) (s : ℕ) (d w : String)
    (t : Tx) (h : createAnchorTx (u :: rest) s d w = .ok t) :
    (dust_amount ≤ u.sats - dust_amount - anchorFee s →
        outputSats t + anchorFee s = u.sats)
    ∧ (u.sats - dust_amount - anchorFee s = 0 →
        outputSats t + anchorFee s = u.sats)
    ∧ (0 ≤ u.sats - dust_amount - anchorFee s →
        u.sats - dust_amount - anchorFee s < dust_amount →
        t.outputs.map TxOutput.sats = [dust_amount]
        ∧ u.sats - (outputSats t + anchorFee s) = u.sats - dust_amount - anchorFee s) := by
  rw [createAnchorTx_cons] at h
  have hdust : dust_amount = 546 := rfl
  split_ifs at h with h1 h2
  · cases h
    refine ⟨fun _ => ?_, fun _ => ?_, fun _ hc => absurd h2 (not_le.mpr hc)⟩
    all_goals (simp [outputSats]; omega)
  · cases h
    refine ⟨fun hc => absurd hc h2, fun hz => ?_, fun _ _ => ⟨rfl, ?_⟩⟩
    all_goals (simp [outputSats]; omega)

/-- Witness for C5: a 900-sat input at estimated size 225 (fee 112, change 242
sub-dust): the single dust output and the shortfall equation, via the amended
conservation theorem. -/
theorem c5_conservation_witness :
    (⟨[⟨"bb", 2, 900, Script.p2pkh "W"⟩],
      [⟨dust_amount, Script.p2pkh "D"⟩]⟩ : Tx).outputs.map TxOutput.sats
      = [dust_amount]
    ∧ (900 : ℤ)
        - (outputSats ⟨[⟨"bb", 2, 900, Script.p2pkh "W"⟩],
                       [⟨dust_amount, Script.p2pkh "D"⟩]⟩ + anchorFee 225)
      = 900 - dust_amount - anchorFee 225 :=
  (c5_conservation ⟨"bb", 2, 900, Script.p2pkh "W"⟩ [] 225 "D" "W"
      ⟨[⟨"bb", 2, 900, Script.p2pkh "W"⟩], [⟨dust_amount, Script.p2pkh "D"⟩]⟩
      (by rw [createAnchorTx_cons, anchorFee_225]; rfl)).2.2
    (by rw [anchorFee_225]; decide)
    (by rw [anchorFee_225]; decide)

/-- An indexer entry with non-positive value, or with a missing/empty
transaction hash, or with a missing or non-integer output index, is dropped by
the `_fetch_utxos` filter. -/
theorem convUtxo_eq_none (address : String) (e : WocEntry)
    (h : e.value ≤ 0 ∨ e.tx_hash = none ∨ e.tx_hash = some "" ∨ e.tx_pos = none) :
    convUtxo address e = none := by
  obtain ⟨v, th, tp⟩ := e
  rcases th with _ | txid
  · rfl
  · rcases tp with _ | idx
    · rfl
    · simp only [convUtxo]
      rw [if_neg]
      rintro ⟨hv, hne⟩
      rcases h with h | h | h | h
      · exact absurd hv (not_lt.mpr h)
      · exact Option.noConfusion h
      · exact hne (Option.some.inj h)
      · exact Option.noConfusion h

/-- C6: the UTXO source returns only entries with strictly positive value and
a present, non-empty transaction hash and a present integer output index
(every entry failing those checks is filtered out), and a failed or
unreachable indexer query yields the empty list instead of an error. -/
theorem c6_fetch_utxos (address : String) :
    fetchUtxos address (.error ()) = []
    ∧ (∀ (data : List WocEntry) (u : Utxo), u ∈ fetchUtxos address (.ok data) →
        0 < u.sats ∧ u.txid ≠ "" ∧ u.script_pubkey = Script.p2pkh address
        ∧ ∃ e ∈ data, e.tx_hash = some u.txid ∧ e.tx_pos = some u.index
            ∧ e.value = u.sats)
    ∧ (∀ data : List WocEntry,
        (∀ e ∈ data,
          e.value ≤ 0 ∨ e.tx_hash = none ∨ e.tx_hash = some "" ∨ e.tx_pos = none) →
        fetchUtxos address (.ok data) = []) := by
  refine ⟨rfl, ?_, ?_⟩
  · intro data u hu
    simp only [fetchUtxos] at hu
    rw [List.mem_filterMap] at hu
    obtain ⟨e, he, hconv⟩ := hu
    obtain ⟨v, th, tp⟩ := e
    rcases th with _ | txid
    · exact Option.noConfusion hconv
    · rcases tp with _ | idx
      · exact Option.noConfusion hconv
      · simp only [convUtxo] at hconv
        split_ifs at hconv with hcond
        cases Option.some.inj hconv
        exact ⟨hcond.1, hcond.2, rfl, ⟨v, some txid, some idx⟩, he, rfl, rfl, rfl⟩
  · intro data hall
    simp only [fetchUtxos]
    rw [List.filterMap_eq_nil_iff]
    exact fun e he => convUtxo_eq_none address e (hall e he)

/-- Witness for C6: a list with one good entry yields exactly that UTXO (whose
properties follow from the theorem), and a list of four defective entries —
zero value, missing hash, empty hash, missing index — is fully filtered
out. -/
theorem c6_fetch_utxos_witness :
    (0 : ℤ) < (⟨"ab", 3, 5, Script.p2pkh "W"⟩ : Utxo).sats
    ∧ (⟨"ab", 3, 5, Script.p2pkh "W"⟩ : Utxo).txid ≠ ""
    ∧ fetchUtxos "W"
        (.ok [⟨0, some "ab", some 0⟩, ⟨7, none, some 1⟩,
              ⟨7, some "", some 2⟩, ⟨7, some "cd", none⟩]) = [] :=
  ⟨((c6_fetch_utxos "W").2.1 [⟨5, some "ab", some 3⟩] ⟨"ab", 3, 5, Script.p2pkh "W"⟩
      (by decide)).1,
   ((c6_fetch_utxos "W").2.1 [⟨5, some "ab", some 3⟩] ⟨"ab", 3, 5, Script.p2pkh "W"⟩
      (by decide)).2.1,
   (c6_fetch_utxos "W").2.2 _ (by decide)⟩

/-- C7: in `add_vcsl` anchoring strictly precedes persistence — a store write
happens only with the transaction id of a successful broadcast; if derivation,
build, or broadcast fails the call fails with the anchor error and no store
write occurred; if the broadcast succeeds and the store write then fails, the
call fails with the distinct reconciliation error carrying the successful
transaction id. -/
theorem c7_add_vcsl (s : AnchorSteps)
    (store_vcsl : String → String → String → Except String Unit)
    (id ipns : String) :
    (∀ i p txid, Ev.storeVcsl i p txid ∈ (add_vcsl s store_vcsl id ipns).2 →
        (anchorChain s).1 = .ok txid ∧ i = id ∧ p = ipns)
    ∧ (∀ e, (anchorChain s).1 = .error e →
        (add_vcsl s store_vcsl id ipns).1 = .error (.anchorFailed e)
        ∧ ∀ i p txid, Ev.storeVcsl i p txid ∉ (add_vcsl s store_vcsl id ipns).2)
    ∧ (∀ txid e, (anchorChain s).1 = .ok txid →
        store_vcsl id ipns txid = .error e →
        (add_vcsl s store_vcsl id ipns).1
          = .error (.reconciliationRequired txid e)) := by
  rcases hac : anchorChain s with ⟨r, evs⟩
  have hnot : ∀ i p t, Ev.storeVcsl i p t ∉ evs := by
    intro i p t
    have hmem := storeVcsl_not_mem_anchorChain s i p t
    rw [hac] at hmem
    exact hmem
  cases r with
  | error e =>
    refine ⟨?_, ?_, ?_⟩
    · intro i p txid hmem
      simp only [add_vcsl, hac] at hmem
      exact absurd hmem (hnot i p txid)
    · intro e' he'
      have hee : e = e' := by simpa using he'
      subst hee
      exact ⟨by simp [add_vcsl, hac], fun i p txid => by
        simp only [add_vcsl, hac]; exact hnot i p txid⟩
    · intro txid e' hok
      simp at hok
  | ok txid0 =>
    refine ⟨?_, ?_, ?_⟩
    · intro i p txid hmem
      rcases hst : store_vcsl id ipns txid0 with e | v <;>
        simp only [add_vcsl, hac, hst] at hmem <;>
        rw [List.mem_append] at hmem <;>
        rcases hmem with hmem | hmem
      · exact absurd hmem (hnot i p txid)
      · rw [List.mem_singleton] at hmem
        cases hmem
        exact ⟨rfl, rfl, rfl⟩
      · exact absurd hmem (hnot i p txid)
      · rw [List.mem_singleton] at hmem
        cases hmem
        exact ⟨rfl, rfl, rfl⟩
    · intro e' he'
      simp at he'
    · intro txid e' hok hst
      have htt : txid0 = txid := by simpa using hok
      subst htt
      simp only [add_vcsl, hac, hst]

/-- Witness for C7: with a concrete chain whose broadcast succeeds with id
"TX" and a store write that fails with "db", `add_vcsl` fails with the
reconciliation error carrying "TX"; with a concrete chain whose broadcast
fails with "reject", it fails with the anchor error. -/
theorem c7_add_vcsl_witness :
    (add_vcsl ⟨.ok "K", fun _ => .ok ⟨[], []⟩, fun _ => .ok "TX"⟩
        (fun _ _ _ => .error "db") "v1" "ipns1").1
      = .error (.reconciliationRequired "TX" "db")
    ∧ (add_vcsl ⟨.ok "K", fun _ => .ok ⟨[], []⟩, fun _ => .error "reject"⟩
        (fun _ _ _ => .ok ()) "v1" "ipns1").1
      = .error (.anchorFailed "reject") :=
  ⟨(c7_add_vcsl ⟨.ok "K", fun _ => .ok ⟨[], []⟩, fun _ => .ok "TX"⟩
      (fun _ _ _ => .error "db") "v1" "ipns1").2.2 "TX" "db" rfl rfl,
   ((c7_add_vcsl ⟨.ok "K", fun _ => .ok ⟨[], []⟩, fun _ => .error "reject"⟩
      (fun _ _ _ => .ok ()) "v1" "ipns1").2.1 "reject" rfl).1⟩

/-- C8: in `set_issuer_url` a failure of the initial URL store write is fatal
and aborts the call before any anchoring step runs; after a successful store
write, a failure anywhere in the derive/build/broadcast chain makes the call
return no anchor (`none`) instead of failing; and after a successful
broadcast, a failure to persist the anchor transaction id is non-fatal — the
call still returns the transaction id. -/
theorem c8_set_issuer_url (s : AnchorSteps)
    (update_issuer_url : String → String → Except String Unit)
    (store_issuer_anchor : String → String → Except String Unit)
    (issuer_id new_issuer_url : String) :
    (∀ e, update_issuer_url issuer_id new_issuer_url = .error e →
        (set_issuer_url s update_issuer_url store_issuer_anchor issuer_id
            new_issuer_url).1
          = .error ("Failed to update issuer URL in database: " ++ e)
        ∧ Ev.deriveKeyEv ∉
            (set_issuer_url s update_issuer_url store_issuer_anchor issuer_id
              new_issuer_url).2)
    ∧ (∀ v, update_issuer_url issuer_id new_issuer_url = .ok v →
        ∀ e, (anchorChain s).1 = .error e →
        (set_issuer_url s update_issuer_url store_issuer_anchor issuer_id
            new_issuer_url).1 = .ok none)
    ∧ (∀ v txid, update_issuer_url issuer_id new_issuer_url = .ok v →
        (anchorChain s).1 = .ok txid →
        ∀ e, store_issuer_anchor issuer_id txid = .error e →
        (set_issuer_url s update_issuer_url store_issuer_anchor issuer_id
            new_issuer_url).1 = .ok (some txid)) := by
  refine ⟨?_, ?_, ?_⟩
  · intro e he
    constructor
    · simp only [set_issuer_url, he]
    · simp only [set_issuer_url, he]
      rw [List.mem_singleton]
      exact fun hc => Ev.noConfusion hc
  · intro v hv e he
    rcases hac : anchorChain s with ⟨r, evs⟩
    rw [hac] at he
    cases r with
    | error e' => simp only [set_issuer_url, hv, hac]
    | ok txid0 => exact Except.noConfusion he
  · intro v txid hv hok e hst
    rcases hac : anchorChain s with ⟨r, evs⟩
    rw [hac] at hok
    cases r with
    | error e' => exact Except.noConfusion hok
    | ok txid0 =>
      cases hok
      simp only [set_issuer_url, hv, hac, hst]

/-- Witness for C8: a failing URL write aborts the call with no anchoring
attempted; with the URL write succeeding, a failing broadcast yields `.ok
none`; with everything but the secondary anchor-id write succeeding, the call
still returns the transaction id "TX". -/
theorem c8_set_issuer_url_witness :
    ((set_issuer_url ⟨.ok "K", fun _ => .ok ⟨[], []⟩, fun _ => .ok "TX"⟩
        (fun _ _ => .error "down") (fun _ _ => .ok ()) "i1" "https://u").1
      = .error ("Failed to update issuer URL in database: " ++ "down")
      ∧ Ev.deriveKeyEv ∉
          (set_issuer_url ⟨.ok "K", fun _ => .ok ⟨[], []⟩, fun _ => .ok "TX"⟩
            (fun _ _ => .error "down") (fun _ _ => .ok ()) "i1" "https://u").2)
    ∧ (set_issuer_url ⟨.ok "K", fun _ => .ok ⟨[], []⟩, fun _ => .error "reject"⟩
        (fun _ _ => .ok ()) (fun _ _ => .ok ()) "i1" "https://u").1 = .ok none
    ∧ (set_issuer_url ⟨.ok "K", fun _ => .ok ⟨[], []⟩, fun _ => .ok "TX"⟩
        (fun _ _ => .ok ()) (fun _ _ => .error "db") "i1" "https://u").1
      = .ok (some "TX") :=
  ⟨(c8_set_issuer_url ⟨.ok "K", fun _ => .ok ⟨[], []⟩, fun _ => .ok "TX"⟩
      (fun _ _ => .error "down") (fun _ _ => .ok ()) "i1" "https://u").1 "down" rfl,
   (c8_set_issuer_url ⟨.ok "K", fun _ => .ok ⟨[], []⟩, fun _ => .error "reject"⟩
      (fun _ _ => .ok ()) (fun _ _ => .ok ()) "i1" "https://u").2.1 () rfl "reject" rfl,
   (c8_set_issuer_url ⟨.ok "K", fun _ => .ok ⟨[], []⟩, fun _ => .ok "TX"⟩
      (fun _ _ => .ok ()) (fun _ _ => .error "db") "i1" "https://u").2.2 () "TX" rfl rfl
      "db" rfl⟩

/-- C9: the broadcaster fails (with the re-raised broadcast failure) exactly
when the submission transport fails or the submission is rejected; when the
endpoint accepts but its reported identifier (after stripping whitespace and
quotes) differs from the locally computed one, the broadcaster returns the
locally computed identifier with only a warning flag instead of failing. -/
theorem c9_broadcast (localTxid : String) (response : Except String String) :
    ((∃ e, broadcastTx localTxid response = .error e) ↔ ∃ m, response = .error m)
    ∧ (∀ text, response = .ok text →
        broadcastTx localTxid response
          = .ok (localTxid,
              decide (pyStrip (fun c => c = '"') (pyStrip isPySpace text)
                        ≠ localTxid))) := by
  constructor
  · constructor
    · intro h
      obtain ⟨e, he⟩ := h
      cases response with
      | error m => exact ⟨m, rfl⟩
      | ok text =>
        simp only [broadcastTx] at he
        split_ifs at he
    · intro h
      obtain ⟨m, hm⟩ := h
      subst hm
      exact ⟨"Failed to broadcast transaction: " ++ m, rfl⟩
  · intro text htext
    subst htext
    simp only [broadcastTx]
    split_ifs with hmatch
    · rw [hmatch]
      simp [hmatch]
    · simp [hmatch]

/-- Witness for C9: an accepted submission whose body is the quoted local id
(match, no warning), an accepted submission reporting a different id
(mismatch, local id returned with the warning flag), and a rejected
submission (failure). -/
theorem c9_broadcast_witness :
    broadcastTx "abc" (.ok " \"abc\" ")
      = .ok ("abc",
          decide (pyStrip (fun c => c = '"') (pyStrip isPySpace " \"abc\" ") ≠ "abc"))
    ∧ broadcastTx "abc" (.ok "other")
      = .ok ("abc",
          decide (pyStrip (fun c => c = '"') (pyStrip isPySpace "other") ≠ "abc"))
    ∧ decide (pyStrip (fun c => c = '"') (pyStrip isPySpace " \"abc\" ") ≠ "abc") = false
    ∧ decide (pyStrip (fun c => c = '"') (pyStrip isPySpace "other") ≠ "abc") = true
    ∧ broadcastTx "abc" (.error "rejected")
      = .error ("Failed to broadcast transaction: " ++ "rejected") :=
  ⟨(c9_broadcast "abc" (.ok " \"abc\" ")).2 " \"abc\" " rfl,
   (c9_broadcast "abc" (.ok "other")).2 "other" rfl,
   by decide, by decide, rfl⟩

/-- C10 (code bug): for an issuer id absent from the store, the exposed
`get_issuer_url` route does not produce a distinct not-found signal — the 404
it raises internally is caught by the route's own blanket `except Exception`
and re-raised as a generic 500 — and the service-level getters return `none` /
`(none, none)` on a store query failure as well, not exactly on absence. -/
theorem c10_not_found_swallowed :
    rout_get_issuer_url (.ok none) "abc"
      = .error ⟨500, "Error retrieving issuer URL: 404: Issuer URL not found for abc"⟩
    ∧ serv_get_issuer_url (.ok none) = none
    ∧ serv_get_issuer_url (.error "db down") = none
    ∧ serv_get_vcsl (.ok none) = (none, none)
    ∧ serv_get_vcsl (.error "db down") = (none, none) :=
  ⟨rfl, rfl, rfl, rfl, rfl⟩

end VCSL
